import Mathlib

/-!
Shallow embedding of the winit-egui-wgpu-template repository (src/lib.rs plus
the geometry/UI modules it declares). The frame loop, event handling, pipeline
selection and buffer bookkeeping are translated from src/lib.rs. The modules
vertex.rs and ui.rs are declared in lib.rs but absent from the sources, so the
geometry generator (Vertex::generate_polygon, Vertex::generate_cube) and the
UI state record are modelled from the specification, as marked on each
definition.
-/

namespace Voxxele

/-- Modelled from the spec: a mesh vertex carries a position of three floats
(src/vertex.rs is missing from the sources). The unspecified per-vertex
attribute ("color or normal placeholder") is not modelled; no claim concerns
it. Coordinates are real numbers standing for the f32 values. -/
structure Vertex where
  x : ℝ
  y : ℝ
  z : ℝ

/-- Modelled from the spec: the error raised by the geometry generator on a
degenerate input (sides < 3). -/
inductive GeomError
  | invalidArgument
deriving DecidableEq

/-- Modelled from the spec: the vertex list of a regular polygon with `sides`
vertices, evenly spaced on a circle of radius `r` in the plane z = 0, vertex i
at angle 2·π·i/sides (Vertex::generate_polygon in the missing
src/vertex.rs). -/
noncomputable def polygon_vertices (sides : ℕ) (r : ℝ) : List Vertex :=
  (List.range sides).map (fun (i : ℕ) =>
    ⟨r * Real.cos (2 * Real.pi * i / sides),
     r * Real.sin (2 * Real.pi * i / sides), 0⟩)

/-- Index list of a triangle fan with `n` triangles: triangle t is
(0, t+1, t+2). -/
def fanIndices (n : ℕ) : List ℕ :=
  (List.range n).flatMap (fun i => [0, i + 1, i + 2])

/-- Modelled from the spec: the triangle-fan index list of a regular polygon,
triangles (0, i, i+1) for i = 1 .. sides-2, hence 3·(sides-2) indices
(Vertex::generate_polygon in the missing src/vertex.rs). The source stores
indices as u16; they are modelled as naturals, all bounded by `sides`. -/
def polygon_indices (sides : ℕ) : List ℕ :=
  fanIndices (sides - 2)

/-- Modelled from the spec: the geometry-generator operation
`generatePolygon(sides, radius)`, which fails with an InvalidArgument error on
the degenerate input sides < 3 and otherwise returns the polygon mesh. -/
noncomputable def generate_polygon (sides : ℕ) (r : ℝ) :
    Except GeomError (List Vertex × List ℕ) :=
  if sides < 3 then Except.error GeomError.invalidArgument
  else Except.ok (polygon_vertices sides r, polygon_indices sides)

/-- Modelled from the spec: the 8 corners of a unit cube, exact rational
coordinates ±1/2 (Vertex::generate_cube in the missing src/vertex.rs). -/
def cube_vertices_q : List (ℚ × ℚ × ℚ) :=
  [(-(1/2), -(1/2), -(1/2)), (1/2, -(1/2), -(1/2)),
   (1/2, 1/2, -(1/2)), (-(1/2), 1/2, -(1/2)),
   (-(1/2), -(1/2), 1/2), (1/2, -(1/2), 1/2),
   (1/2, 1/2, 1/2), (-(1/2), 1/2, 1/2)]

/-- Modelled from the spec: 36 indices forming 12 triangles, two per face of
the cube, with a fixed ordering and consistent outward counter-clockwise
winding (Vertex::generate_cube in the missing src/vertex.rs). -/
def cube_indices : List ℕ :=
  [4, 5, 6, 4, 6, 7,
   1, 0, 3, 1, 3, 2,
   5, 1, 2, 5, 2, 6,
   0, 4, 7, 0, 7, 3,
   7, 6, 2, 7, 2, 3,
   0, 1, 5, 0, 5, 4]

/-- Modelled from the spec: `generateCube()` returns the cube mesh, the
rational corner coordinates injected into the real-valued vertex type used by
the frame loop. -/
noncomputable def generate_cube : List Vertex × List ℕ :=
  (cube_vertices_q.map (fun v => ⟨(v.1 : ℝ), (v.2.1 : ℝ), (v.2.2 : ℝ)⟩),
   cube_indices)

/-- Bounding-box membership check for a rational cube vertex: every coordinate
lies within [-1/2, 1/2]. -/
def inUnitBox (v : ℚ × ℚ × ℚ) : Bool :=
  decide (-(1/2 : ℚ) ≤ v.1) && decide (v.1 ≤ 1/2) &&
  decide (-(1/2 : ℚ) ≤ v.2.1) && decide (v.2.1 ≤ 1/2) &&
  decide (-(1/2 : ℚ) ≤ v.2.2) && decide (v.2.2 ≤ 1/2)

/-- Bounding-box tightness check: each of the six extreme planes x = ±1/2,
y = ±1/2, z = ±1/2 is attained by some cube vertex. -/
def cubeBoxAttained : Bool :=
  decide ((-(1/2) : ℚ) ∈ cube_vertices_q.map (fun v => v.1)) &&
  decide (((1/2) : ℚ) ∈ cube_vertices_q.map (fun v => v.1)) &&
  decide ((-(1/2) : ℚ) ∈ cube_vertices_q.map (fun v => v.2.1)) &&
  decide (((1/2) : ℚ) ∈ cube_vertices_q.map (fun v => v.2.1)) &&
  decide ((-(1/2) : ℚ) ∈ cube_vertices_q.map (fun v => v.2.2)) &&
  decide (((1/2) : ℚ) ∈ cube_vertices_q.map (fun v => v.2.2))

/-- Shape selector of the UI, `RenderingStyle` in the missing src/ui.rs;
lib.rs matches on the variants `Polygon` and `Cube`. -/
inductive RenderingStyle
  | Polygon
  | Cube
deriving DecidableEq

/-- Modelled from the spec: the mutable UI state record exposed by the UI
overlay layer (UIState in the missing src/ui.rs), with the four fields lib.rs
reads: `sides`, `rendering_style`, `active_shader`, `scale_factor`. -/
structure UIState where
  sides : ℕ
  rendering_style : RenderingStyle
  active_shader : String
  scale_factor : ℝ

/-- The two render pipelines built in src/lib.rs lines 151-172: the main one
and the challenge one. -/
inductive Pipeline
  | main
  | challenge
deriving DecidableEq

/-- Pipeline selection of src/lib.rs lines 299-303: match on
`ui_state.active_shader`, with the wildcard arm falling back to the main
pipeline. -/
def selectPipeline (name : String) : Pipeline :=
  match name with
  | "main" => Pipeline.main
  | "challenge" => Pipeline.challenge
  | _ => Pipeline.main

/-- The mutable state owned by the event loop of src/lib.rs: the close flag
and modifiers (lines 199-200), the surface configuration extent (lines 72-81),
the UI state and `previous_sides` (lines 175-176), and the GPU vertex/index
buffer contents with `num_indices` (lines 182-195). Modifier state is
abstracted to its raw bits. -/
structure State where
  close_requested : Bool
  modifiers : ℕ
  width : ℕ
  height : ℕ
  ui : UIState
  previous_sides : ℕ
  vertex_buffer : List Vertex
  index_buffer : List ℕ
  num_indices : ℕ

/-- The initial loop state of src/lib.rs lines 72-200, parametric in the
initial UI state (UIState::new lives in the missing src/ui.rs): close flag
false, default modifiers, 1360×768 surface, buffers filled from
`Vertex::generate_polygon(ui_state.sides, 0.5)` and `previous_sides`
initialised to `ui_state.sides`. -/
noncomputable def initState (ui0 : UIState) : State :=
  { close_requested := false
    modifiers := 0
    width := 1360
    height := 768
    ui := ui0
    previous_sides := ui0.sides
    vertex_buffer := polygon_vertices ui0.sides (1/2)
    index_buffer := polygon_indices ui0.sides
    num_indices := (polygon_indices ui0.sides).length }

/-- The key of a keyboard event, as far as lib.rs line 219 inspects it: either
the named Escape key or anything else. -/
inductive KeyModel
  | escape
  | otherKey
deriving DecidableEq

/-- Window events as dispatched by the match of src/lib.rs lines 209-329. The
five matched kinds keep the payload lib.rs reads; `otherWindow` stands for
every variant swallowed by the wildcard arm at line 328. `redrawRequested`
carries the UI state as it stands after the frame's `draw_ui` call, since the
external UI layer mutates the UI fields during that call and the loop reads
them back on the following frame. -/
inductive WinEvent
  | closeRequested
  | modifiersChanged (m : ℕ)
  | keyboardInput (k : KeyModel)
  | resized (w h : ℕ)
  | redrawRequested (newUi : UIState)
  | otherWindow

/-- Top-level loop events of src/lib.rs lines 205-338: a window event, the
`AboutToWait` pass that consults the close flag, or anything else (wildcard
arm at line 337). -/
inductive LoopEvent
  | windowEvent (e : WinEvent)
  | aboutToWait
  | otherEvent

/-- Observable GPU-side effects of one event dispatch, in issue order:
surface reconfiguration (lines 223-227), replacement of the vertex and index
buffers (lines 239-253), the indexed draw call with its pipeline and index
count (lines 299-309), the UI overlay pass (lines 313-321), and presentation
(line 325). -/
inductive Effect
  | configureSurface (w h : ℕ)
  | replaceBuffers
  | drawIndexed (p : Pipeline) (n : ℕ)
  | uiPass
  | present

/-- Regeneration test of src/lib.rs lines 229-231:
`ui_state.sides != previous_sides || matches!(ui_state.rendering_style,
RenderingStyle::Cube)`. -/
def regenNeeded (s : State) : Bool :=
  (s.ui.sides != s.previous_sides) ||
    (match s.ui.rendering_style with
     | RenderingStyle.Cube => true
     | RenderingStyle.Polygon => false)

/-- The RedrawRequested arm of src/lib.rs lines 228-326: if the regeneration
test fires, rebuild the mesh for the current rendering style (radius 0.5 for
the polygon), replace both buffers, update `num_indices` and
`previous_sides`; then issue one indexed draw with the pipeline selected from
`active_shader`, run the UI pass and present. `newUi` is the UI state as left
by this frame's `draw_ui` call. -/
noncomputable def redrawStep (s : State) (newUi : UIState) :
    State × List Effect :=
  let s1 :=
    if regenNeeded s then
      let m :=
        match s.ui.rendering_style with
        | RenderingStyle.Polygon =>
            (polygon_vertices s.ui.sides (1/2), polygon_indices s.ui.sides)
        | RenderingStyle.Cube => generate_cube
      { s with
        vertex_buffer := m.1
        index_buffer := m.2
        num_indices := m.2.length
        previous_sides := s.ui.sides }
    else s
  let fx :=
    (if regenNeeded s then [Effect.replaceBuffers] else []) ++
      [Effect.drawIndexed (selectPipeline s1.ui.active_shader) s1.num_indices,
       Effect.uiPass, Effect.present]
  ({ s1 with ui := newUi }, fx)

/-- The window-event match of src/lib.rs lines 209-329. CloseRequested and an
Escape key event set the close flag; ModifiersChanged stores the new state;
Resized updates the surface configuration and reconfigures; RedrawRequested
runs `redrawStep`; every other window event is swallowed by the wildcard
arm. -/
noncomputable def handleWindow (s : State) (e : WinEvent) :
    State × List Effect :=
  match e with
  | WinEvent.closeRequested => ({ s with close_requested := true }, [])
  | WinEvent.modifiersChanged m => ({ s with modifiers := m }, [])
  | WinEvent.keyboardInput k =>
      match k with
      | KeyModel.escape => ({ s with close_requested := true }, [])
      | KeyModel.otherKey => (s, [])
  | WinEvent.resized w h =>
      ({ s with width := w, height := h }, [Effect.configureSurface w h])
  | WinEvent.redrawRequested newUi => redrawStep s newUi
  | WinEvent.otherWindow => (s, [])

/-- Result of dispatching one loop event: the successor state, the effects
issued, and whether `elwt.exit()` was called. -/
structure StepResult where
  state : State
  effects : List Effect
  exited : Bool

/-- One iteration of the event loop closure of src/lib.rs lines 202-339: a
window event goes through the window match, `AboutToWait` consults the close
flag and exits when it is set (lines 332-336), and any other event is ignored
(line 337). -/
noncomputable def step (s : State) (e : LoopEvent) : StepResult :=
  match e with
  | LoopEvent.windowEvent we =>
      let r := handleWindow s we
      ⟨r.1, r.2, false⟩
  | LoopEvent.aboutToWait => ⟨s, [], s.close_requested⟩
  | LoopEvent.otherEvent => ⟨s, [], false⟩

/-- State reached after dispatching a whole event sequence. -/
noncomputable def runEvents (s : State) (es : List LoopEvent) : State :=
  es.foldl (fun t e => (step t e).state) s

/-- Number of buffer replacements among a list of effects. -/
def countReplace (fx : List Effect) : ℕ :=
  (fx.filter (fun e =>
    match e with
    | Effect.replaceBuffers => true
    | _ => false)).length

/-- Whether a buffer replacement occurs before the (first) draw call:
scanning left to right, no `drawIndexed` precedes the first
`replaceBuffers`. -/
def replaceBeforeDraw : List Effect → Bool
  | [] => false
  | Effect.replaceBuffers :: _ => true
  | Effect.drawIndexed _ _ :: _ => false
  | _ :: fx => replaceBeforeDraw fx

/-- Window-event kinds the core reacts to: exactly the five matched arms of
src/lib.rs lines 209-327; the wildcard arm at line 328 handles nothing. -/
def handledWindow : WinEvent → Bool
  | WinEvent.otherWindow => false
  | _ => true

/-- Invariant of the loop state: `num_indices` equals the length of the index
sequence most recently written into the index buffer. -/
def bufferInv (s : State) : Prop :=
  s.num_indices = s.index_buffer.length

/-- Concrete UI state: cube selected, 6 sides remembered from the polygon UI
slider, main shader, unit scale. -/
noncomputable def ui_cube6 : UIState :=
  { sides := 6
    rendering_style := RenderingStyle.Cube
    active_shader := "main"
    scale_factor := 1 }

/-- Concrete UI state: hexagon selected, main shader, unit scale. -/
noncomputable def ui_poly6 : UIState :=
  { sides := 6
    rendering_style := RenderingStyle.Polygon
    active_shader := "main"
    scale_factor := 1 }

/-- Concrete loop state: cube selected, `previous_sides` in sync with the UI
slider, cube mesh resident in the buffers. -/
noncomputable def demoState : State :=
  { close_requested := false
    modifiers := 0
    width := 1360
    height := 768
    ui := ui_cube6
    previous_sides := 6
    vertex_buffer := []
    index_buffer := cube_indices
    num_indices := 36 }

/-- The same concrete loop state with the close flag already set. -/
noncomputable def demoClosed : State :=
  { demoState with close_requested := true }

theorem fanIndices_succ (n : ℕ) :
    fanIndices (n + 1) = fanIndices n ++ [0, n + 1, n + 2] := by
  simp [fanIndices, List.range_succ, List.flatMap_append]

theorem fanIndices_length (n : ℕ) : (fanIndices n).length = 3 * n := by
  induction n with
  | zero => rfl
  | succ k ih => rw [fanIndices_succ]; simp [ih]; omega

theorem fanIndices_getElem (n t j : ℕ) (ht : t < n) (hj : j < 3) :
    (fanIndices n)[3 * t + j]? = [0, t + 1, t + 2][j]? := by
  induction n with
  | zero => omega
  | succ k ih =>
      rw [fanIndices_succ]
      rcases Nat.lt_succ_iff_lt_or_eq.mp ht with h | h
      · have hlen : 3 * t + j < (fanIndices k).length := by
          rw [fanIndices_length]; omega
        rw [List.getElem?_append_left hlen]
        exact ih h
      · subst h
        have hlen : (fanIndices t).length = 3 * t := fanIndices_length t
        rw [List.getElem?_append_right (by omega)]
        congr 1
        omega

theorem fanIndices_mem (n k : ℕ) (hk : k ∈ fanIndices n) : k < n + 2 := by
  simp only [fanIndices, List.mem_flatMap, List.mem_range] at hk
  rcases hk with ⟨i, hi, h⟩
  simp only [List.mem_cons, List.not_mem_nil, or_false] at h
  rcases h with h | h | h <;> omega

theorem vertex_norm (r θ : ℝ) (hr : 0 ≤ r) :
    Real.sqrt ((r * Real.cos θ) ^ 2 + (r * Real.sin θ) ^ 2 + 0 ^ 2) = r := by
  have h : (r * Real.cos θ) ^ 2 + (r * Real.sin θ) ^ 2 + 0 ^ 2
      = r ^ 2 * (Real.sin θ ^ 2 + Real.cos θ ^ 2) := by ring
  rw [h, Real.sin_sq_add_cos_sq, mul_one, Real.sqrt_sq hr]

/-- C2: for every `sides` with 3 ≤ sides ≤ 10000 and every radius r > 0,
`generatePolygon(sides, r)` succeeds, returning exactly `sides` vertices,
vertex i placed at angle 2·π·i/sides in the plane z = 0 and at distance r
from the origin, and exactly 3·(sides-2) indices, every index below `sides`,
forming the triangle fan (0, t, t+1) for t = 1 .. sides-2. -/
theorem generate_polygon_correct (sides : ℕ) (r : ℝ)
    (h3 : 3 ≤ sides) (h10k : sides ≤ 10000) (hr : 0 < r) :
    generate_polygon sides r
        = Except.ok (polygon_vertices sides r, polygon_indices sides)
      ∧ (polygon_vertices sides r).length = sides
      ∧ (∀ i : ℕ, i < sides →
          (polygon_vertices sides r)[i]? =
            some ⟨r * Real.cos (2 * Real.pi * i / sides),
                  r * Real.sin (2 * Real.pi * i / sides), 0⟩)
      ∧ (∀ v ∈ polygon_vertices sides r,
          v.z = 0 ∧ Real.sqrt (v.x ^ 2 + v.y ^ 2 + v.z ^ 2) = r)
      ∧ (polygon_indices sides).length = 3 * (sides - 2)
      ∧ (∀ k ∈ polygon_indices sides, k < sides)
      ∧ (∀ t : ℕ, t < sides - 2 →
          (polygon_indices sides)[3 * t]? = some 0 ∧
          (polygon_indices sides)[3 * t + 1]? = some (t + 1) ∧
          (polygon_indices sides)[3 * t + 2]? = some (t + 2)) := by
  refine ⟨?_, ?_, ?_, ?_, ?_, ?_, ?_⟩
  · unfold generate_polygon
    rw [if_neg (by omega)]
  · simp [polygon_vertices]
  · intro i hi
    unfold polygon_vertices
    rw [List.getElem?_map, List.getElem?_range hi]
    rfl
  · intro v hv
    simp only [polygon_vertices, List.mem_map, List.mem_range] at hv
    rcases hv with ⟨i, _, rfl⟩
    exact ⟨rfl, vertex_norm r _ hr.le⟩
  · exact fanIndices_length (sides - 2)
  · intro k hk
    have := fanIndices_mem (sides - 2) k hk
    omega
  · intro t ht
    have h0 := fanIndices_getElem (sides - 2) t 0 ht (by omega)
    have h1 := fanIndices_getElem (sides - 2) t 1 ht (by omega)
    have h2 := fanIndices_getElem (sides - 2) t 2 ht (by omega)
    simp only [Nat.add_zero] at h0
    exact ⟨h0, h1, h2⟩

/-- Witness for C2 at sides = 4, r = 1. -/
theorem generate_polygon_correct_witness :
    (polygon_vertices 4 1).length = 4
      ∧ (polygon_indices 4).length = 3 * (4 - 2) :=
  ⟨(generate_polygon_correct 4 1 (by decide) (by decide) one_pos).2.1,
   (generate_polygon_correct 4 1 (by decide) (by decide)
      one_pos).2.2.2.2.1⟩

/-- C3: `generateCube()` returns exactly 36 indices, each below the vertex
count, forming 12 triangles, and the axis-aligned bounding box of the
returned vertices is exactly [-1/2, 1/2]^3: every coordinate lies within the
box and all six extreme planes are attained. -/
theorem generate_cube_correct :
    cube_indices.length = 36
      ∧ cube_indices.length = 3 * 12
      ∧ cube_indices.all (fun k => decide (k < cube_vertices_q.length)) = true
      ∧ generate_cube.2 = cube_indices
      ∧ generate_cube.1.length = cube_vertices_q.length
      ∧ cube_vertices_q.all inUnitBox = true
      ∧ cubeBoxAttained = true := by
  refine ⟨rfl, rfl, by decide, rfl, by simp [generate_cube],
    by simp [cube_vertices_q, inUnitBox],
    by simp [cubeBoxAttained, cube_vertices_q]⟩

/-- C5: for every sides < 3, `generatePolygon` rejects the degenerate input
with an InvalidArgument error instead of clamping it. -/
theorem generate_polygon_rejects_degenerate (sides : ℕ) (r : ℝ)
    (h : sides < 3) :
    generate_polygon sides r = Except.error GeomError.invalidArgument := by
  unfold generate_polygon
  rw [if_pos h]

/-- Witness for C5 at sides = 2. -/
theorem generate_polygon_rejects_degenerate_witness :
    generate_polygon 2 1 = Except.error GeomError.invalidArgument :=
  generate_polygon_rejects_degenerate 2 1 (by decide)

/-- C7: `generatePolygon` is deterministic: two calls with identical
arguments return identical vertex and index sequences. -/
theorem generate_polygon_deterministic (s₁ : ℕ) (r₁ : ℝ) (s₂ : ℕ) (r₂ : ℝ)
    (hs : s₁ = s₂) (hr : r₁ = r₂) :
    generate_polygon s₁ r₁ = generate_polygon s₂ r₂
      ∧ polygon_vertices s₁ r₁ = polygon_vertices s₂ r₂
      ∧ polygon_indices s₁ = polygon_indices s₂ := by
  subst hs
  subst hr
  exact ⟨rfl, rfl, rfl⟩

/-- Witness for C7 at sides = 4, r = 1. -/
theorem generate_polygon_deterministic_witness :
    generate_polygon 4 1 = generate_polygon 4 1 :=
  (generate_polygon_deterministic 4 1 4 1 rfl rfl).1

theorem regenNeeded_iff (s : State) :
    regenNeeded s = true ↔
      (s.ui.sides ≠ s.previous_sides
        ∨ s.ui.rendering_style = RenderingStyle.Cube) := by
  unfold regenNeeded
  cases h : s.ui.rendering_style <;> simp [h]

/-- C1 (amended): on every redraw the mesh is regenerated and the GPU
buffers replaced exactly when `sides` differs from `previous_sides` or the
rendering style is Cube; the rendering style itself is not compared to the
previously used one, and when regeneration fires the replacement precedes the
draw call. -/
theorem regen_condition (s : State) (u : UIState) :
    countReplace (redrawStep s u).2
        = (if regenNeeded s then 1 else 0)
      ∧ (regenNeeded s = true →
          replaceBeforeDraw (redrawStep s u).2 = true)
      ∧ (regenNeeded s = true ↔
          (s.ui.sides ≠ s.previous_sides
            ∨ s.ui.rendering_style = RenderingStyle.Cube)) := by
  refine ⟨?_, ?_, regenNeeded_iff s⟩
  · cases hb : regenNeeded s <;>
      simp [redrawStep, hb, countReplace]
  · intro h
    simp [redrawStep, h, replaceBeforeDraw]

/-- Witness for C1's amended statement on a state requiring regeneration. -/
theorem regen_condition_witness :
    countReplace (redrawStep demoState ui_poly6).2
        = (if regenNeeded demoState then 1 else 0)
      ∧ replaceBeforeDraw (redrawStep demoState ui_poly6).2 = true :=
  ⟨(regen_condition demoState ui_poly6).1,
   (regen_condition demoState ui_poly6).2.1 rfl⟩

/-- Counterexample to C1 as stated: starting from a state showing the cube
with `previous_sides = 6`, one redraw during which the UI switches the shape
back to Polygon with the same 6 sides leaves a successor state whose shape
kind changed relative to the mesh last uploaded; the following redraw
nevertheless performs zero buffer replacements, because the code only
compares `sides` and never the shape kind. -/
theorem regen_skipped_on_shape_change :
    demoState.ui.rendering_style = RenderingStyle.Cube
      ∧ ((redrawStep demoState ui_poly6).1).ui.rendering_style
          = RenderingStyle.Polygon
      ∧ ((redrawStep demoState ui_poly6).1).ui.sides
          = ((redrawStep demoState ui_poly6).1).previous_sides
      ∧ countReplace
          (redrawStep ((redrawStep demoState ui_poly6).1) ui_poly6).2 = 0 :=
  ⟨rfl, rfl, rfl, rfl⟩

/-- C4: pipeline selection is total and defensive: "main" selects the main
pipeline, "challenge" the challenge pipeline, and any other string falls back
to the main pipeline. -/
theorem pipeline_selection_total (s : String)
    (h1 : s ≠ "main") (h2 : s ≠ "challenge") :
    selectPipeline "main" = Pipeline.main
      ∧ selectPipeline "challenge" = Pipeline.challenge
      ∧ selectPipeline s = Pipeline.main := by
  refine ⟨rfl, rfl, ?_⟩
  unfold selectPipeline
  split
  · exact absurd rfl h1
  · exact absurd rfl h2
  · rfl

/-- Witness for C4 on the unrecognized shader name "neon". -/
theorem pipeline_selection_total_witness :
    selectPipeline "neon" = Pipeline.main :=
  (pipeline_selection_total "neon" (by decide) (by decide)).2.2

/-- C6: when the rendering style stands at Cube on a redraw (as after a
transition from Polygon(6) to Cube between two redraws), that redraw performs
exactly one vertex/index buffer replacement, and the replacement precedes the
frame's draw call. -/
theorem cube_redraw_single_replacement (s : State) (u : UIState)
    (h : s.ui.rendering_style = RenderingStyle.Cube) :
    countReplace (redrawStep s u).2 = 1
      ∧ replaceBeforeDraw (redrawStep s u).2 = true := by
  have hregen : regenNeeded s = true := by
    unfold regenNeeded
    rw [h]
    simp
  simp [redrawStep, hregen, countReplace, replaceBeforeDraw]

/-- Witness for C6 on the concrete cube state. -/
theorem cube_redraw_single_replacement_witness :
    countReplace (redrawStep demoState ui_poly6).2 = 1
      ∧ replaceBeforeDraw (redrawStep demoState ui_poly6).2 = true :=
  cube_redraw_single_replacement demoState ui_poly6 rfl

/-- C8: a close request or an Escape key press sets the close flag; no event
ever resets it; the `AboutToWait` pass of each loop iteration consults the
flag and exits exactly when it is set; the loop never exits while the flag is
false. -/
theorem close_flag_protocol :
    (∀ s : State,
        (step s (LoopEvent.windowEvent
          WinEvent.closeRequested)).state.close_requested = true)
      ∧ (∀ s : State,
          (step s (LoopEvent.windowEvent
            (WinEvent.keyboardInput
              KeyModel.escape))).state.close_requested = true)
      ∧ (∀ (s : State) (e : LoopEvent), s.close_requested = true →
          (step s e).state.close_requested = true)
      ∧ (∀ (s : State) (es : List LoopEvent), s.close_requested = true →
          (runEvents s es).close_requested = true)
      ∧ (∀ s : State,
          (step s LoopEvent.aboutToWait).exited = s.close_requested)
      ∧ (∀ (s : State) (e : LoopEvent), (step s e).exited = true →
          s.close_requested = true) := by
  have hmono : ∀ (s : State) (e : LoopEvent), s.close_requested = true →
      (step s e).state.close_requested = true := by
    intro s e h
    cases e with
    | windowEvent we =>
        cases we with
        | closeRequested => simp [step, handleWindow]
        | modifiersChanged m => simpa [step, handleWindow] using h
        | keyboardInput k =>
            cases k with
            | escape => simp [step, handleWindow]
            | otherKey => simpa [step, handleWindow] using h
        | resized w h2 => simpa [step, handleWindow] using h
        | redrawRequested u =>
            cases hb : regenNeeded s <;>
              simpa [step, handleWindow, redrawStep, hb] using h
        | otherWindow => simpa [step, handleWindow] using h
    | aboutToWait => simpa [step] using h
    | otherEvent => simpa [step] using h
  refine ⟨fun s => rfl, fun s => rfl, hmono, ?_, fun s => rfl, ?_⟩
  · intro s es h
    induction es generalizing s with
    | nil => exact h
    | cons e es ih => exact ih _ (hmono s e h)
  · intro s e h
    cases e with
    | windowEvent we => simp [step] at h
    | aboutToWait => simpa [step] using h
    | otherEvent => simp [step] at h

/-- Witness for C8 on the concrete closed state. -/
theorem close_flag_protocol_witness :
    demoClosed.close_requested = true
      ∧ (runEvents demoClosed [LoopEvent.aboutToWait]).close_requested = true
      ∧ (step demoClosed LoopEvent.aboutToWait).exited = true := by
  refine ⟨rfl, close_flag_protocol.2.2.2.1 demoClosed _ rfl, ?_⟩
  have h := close_flag_protocol.2.2.2.2.1 demoClosed
  rw [h]
  rfl

/-- C9: the core reacts to exactly five window-event kinds — close-request,
modifier-change, key-press, resize and redraw-request; every other window
event leaves the whole loop state (close flag, modifiers, surface
configuration, buffers, `num_indices`, `previous_sides`) unchanged, issues no
GPU effect and does not exit. -/
theorem unhandled_window_events_inert (s : State) (e : WinEvent)
    (h : handledWindow e = false) :
    (step s (LoopEvent.windowEvent e)).state = s
      ∧ (step s (LoopEvent.windowEvent e)).effects = []
      ∧ (step s (LoopEvent.windowEvent e)).exited = false
      ∧ (∀ e2 : WinEvent, handledWindow e2 = true ↔
          (e2 = WinEvent.closeRequested
            ∨ (∃ m, e2 = WinEvent.modifiersChanged m)
            ∨ (∃ k, e2 = WinEvent.keyboardInput k)
            ∨ (∃ w h2, e2 = WinEvent.resized w h2)
            ∨ (∃ u, e2 = WinEvent.redrawRequested u))) := by
  cases e
  case otherWindow =>
    refine ⟨rfl, rfl, rfl, ?_⟩
    intro e2
    cases e2 <;> simp [handledWindow]
  all_goals simp [handledWindow] at h

/-- Witness for C9 on an unmatched window event. -/
theorem unhandled_window_events_inert_witness :
    (step demoState (LoopEvent.windowEvent WinEvent.otherWindow)).state
      = demoState :=
  (unhandled_window_events_inert demoState WinEvent.otherWindow rfl).1

/-- C10: `num_indices` always equals the length of the index sequence most
recently written into the index buffer — it holds in the initial state and is
preserved by every loop iteration — so the indexed draw range 0..num_indices
never extends past the end of the currently bound index buffer. -/
theorem num_indices_matches_index_buffer :
    (∀ u : UIState, bufferInv (initState u))
      ∧ (∀ (s : State) (e : LoopEvent), bufferInv s →
          bufferInv (step s e).state)
      ∧ (∀ (s : State) (e : LoopEvent) (p : Pipeline) (n : ℕ), bufferInv s →
          Effect.drawIndexed p n ∈ (step s e).effects →
          n ≤ (step s e).state.index_buffer.length) := by
  have hstep : ∀ (s : State) (e : LoopEvent), bufferInv s →
      bufferInv (step s e).state := by
    intro s e h
    cases e with
    | windowEvent we =>
        cases we with
        | closeRequested => exact h
        | modifiersChanged m => exact h
        | keyboardInput k => cases k <;> exact h
        | resized w h2 => exact h
        | redrawRequested u =>
            cases hb : regenNeeded s with
            | false => simpa [bufferInv, step, handleWindow, redrawStep, hb]
                using h
            | true => simp [bufferInv, step, handleWindow, redrawStep, hb]
        | otherWindow => exact h
    | aboutToWait => exact h
    | otherEvent => exact h
  refine ⟨fun u => rfl, hstep, ?_⟩
  intro s e p n h hmem
  cases e with
  | windowEvent we =>
      cases we with
      | closeRequested => simp [step, handleWindow] at hmem
      | modifiersChanged m => simp [step, handleWindow] at hmem
      | keyboardInput k => cases k <;> simp [step, handleWindow] at hmem
      | resized w h2 => simp [step, handleWindow] at hmem
      | redrawRequested u =>
          unfold bufferInv at h
          cases hb : regenNeeded s with
          | false =>
              simp [step, handleWindow, redrawStep, hb] at hmem ⊢
              rcases hmem with ⟨-, hn⟩
              subst hn
              omega
          | true =>
              simp [step, handleWindow, redrawStep, hb] at hmem ⊢
              rcases hmem with ⟨-, hn⟩
              subst hn
              exact le_rfl
      | otherWindow => simp [step, handleWindow] at hmem
  | aboutToWait => simp [step] at hmem
  | otherEvent => simp [step] at hmem

/-- Witness for C10 on the concrete cube state and a redraw event. -/
theorem num_indices_matches_index_buffer_witness :
    bufferInv (step demoState
      (LoopEvent.windowEvent (WinEvent.redrawRequested ui_poly6))).state :=
  num_indices_matches_index_buffer.2.1 demoState
    (LoopEvent.windowEvent (WinEvent.redrawRequested ui_poly6)) rfl

end Voxxele
